import Mathlib

/-!
# Verification of the smart-wsn-parking-lot radio core

A shallow embedding of the parking-lot wireless-sensor-network firmware
(sensor node, base station, message library) together with proofs of the
specification's claims about it.

Conventions of the embedding:
* C `uint8_t` / `uint32_t` values are `Nat` with explicit `% 2^8` / `% 2^32`
  reductions where C truncation can matter.
* The NRF24L01 transceiver is an external collaborator; a call into it is
  recorded as a `RadioOp` and its effect on the transceiver's configuration
  is given by `RadioState.apply`.  A run of the protocol produces the exact
  trace of driver calls the C++ code issues, and the resulting configuration
  is the fold of that trace.
* Nondeterministic inputs (carrier sense results, the PRNG, the ack result of
  `radio.write`) are oracle parameters.
-/

namespace SmartWSN

/-! ## Constants (sensornode.cpp lines 24-43, basestation.hpp lines 20-26) -/

/-- sensornode.cpp line 25: the base station's node ID. -/
def BASE_STATION_ID : Nat := 0

/-- sensornode.cpp line 28: special base station address, since 0x00000000 is
not a valid NRF24L01 address. -/
def BASE_STATION_ADDRESS : Nat := 0xBAD1DEA5

/-- sensornode.cpp line 30: number of channels between valid node channels. -/
def RF24_CHANNEL_SPACING : Nat := 5

/-- sensornode.cpp line 31: reading pipe index for the NRF24L01. -/
def RF24_READING_PIPE : Nat := 1

/-- basestation.hpp line 26: width in bytes of the radio's address. -/
def RF24_ADDRESS_WIDTH : Nat := 4

/-- sensornode.cpp line 37: number of carrier-sense attempts while busy. -/
def CHANNEL_CHECKS_MAX : Nat := 10

/-- sensornode.cpp line 40: minimum busy-channel backoff in milliseconds. -/
def CHANNEL_BUSY_DELAY_MIN_MS : Nat := 25

/-- sensornode.cpp line 43: maximum busy-channel backoff in milliseconds
(as named by the source; it is passed as the exclusive upper bound of
Arduino random). -/
def CHANNEL_BUSY_DELAY_MAX_MS : Nat := 100

/-- basestation.hpp line 20: number of sensor nodes. -/
def SENSOR_NODE_NUM : Nat := 10

/-! ## Address and channel derivation (sensornode.cpp lines 55-76) -/

/-- Embeds `SensorNode::calculate_radio_address` (sensornode.cpp lines 55-70).
The C++ returns `BASE_STATION_ADDRESS` for the base-station id, otherwise
builds the byte array `{id, id, id, id}` and memcpys it into a `uint32_t`;
on the little-endian AVR target the resulting value is
`id + id·2^8 + id·2^16 + id·2^24` (and, the four bytes being equal, the
value is the same under either byte order).  The `uint8_t` parameter is
modelled by reducing mod 256. -/
def calculate_radio_address (node_id : Nat) : Nat :=
  let b := node_id % 2 ^ 8
  if b = BASE_STATION_ID then
    BASE_STATION_ADDRESS
  else
    b + b * 2 ^ 8 + b * 2 ^ 16 + b * 2 ^ 24

/-- Embeds `SensorNode::calculate_radio_channel` (sensornode.cpp lines 73-76):
`return node_id * RF24_CHANNEL_SPACING;` with a `uint8_t` parameter and a
`uint8_t` return value. -/
def calculate_radio_channel (node_id : Nat) : Nat :=
  (node_id % 2 ^ 8) * RF24_CHANNEL_SPACING % 2 ^ 8

/-! ## Claims C3 and C4: the derivation functions -/

set_option maxRecDepth 40000 in
/-- **C3.** `calculate_radio_address 0` is the reserved sentinel
`0xBAD1DEA5`; every other `uint8_t` id maps to the address whose four bytes
all equal the id; the mapping is injective over the valid sensor-node ids
1..10; and the sentinel differs from the output of the general
byte-repetition formula for every id that formula is applied to. -/
theorem C3_address_derivation :
    calculate_radio_address BASE_STATION_ID = 0xBAD1DEA5 ∧
    (∀ id : Nat, id ≤ 255 → id ≠ BASE_STATION_ID →
      ∀ k : Nat, k < RF24_ADDRESS_WIDTH →
        calculate_radio_address id / 2 ^ (8 * k) % 2 ^ 8 = id) ∧
    (∀ a ∈ Finset.Icc 1 SENSOR_NODE_NUM, ∀ b ∈ Finset.Icc 1 SENSOR_NODE_NUM,
      a ≠ b → calculate_radio_address a ≠ calculate_radio_address b) ∧
    (∀ id : Nat, id ≤ 255 → id ≠ BASE_STATION_ID →
      calculate_radio_address id ≠ BASE_STATION_ADDRESS) :=
  ⟨by decide, by decide, by decide, by decide⟩

/-- Witness for C3: evaluates the theorem's bounded statements at concrete
ids. -/
theorem C3_address_derivation_witness :
    calculate_radio_address 7 / 2 ^ 16 % 2 ^ 8 = 7 ∧
    calculate_radio_address 2 ≠ calculate_radio_address 9 ∧
    calculate_radio_address 7 ≠ BASE_STATION_ADDRESS :=
  ⟨C3_address_derivation.2.1 7 (by decide) (by decide) 2 (by decide),
   C3_address_derivation.2.2.1 2 (by decide) 9 (by decide) (by decide),
   C3_address_derivation.2.2.2 7 (by decide) (by decide)⟩

set_option maxRecDepth 10000 in
/-- **C4.** Channel derivation is `id * RF24_CHANNEL_SPACING` with spacing 5
(≥ 2); the maximum supported node id 10 yields channel 50, inside the legal
range 0-125; and distinct valid node ids get channels at least 2 apart. -/
theorem C4_channel_derivation :
    RF24_CHANNEL_SPACING = 5 ∧
    2 ≤ RF24_CHANNEL_SPACING ∧
    (∀ id : Nat, id ≤ SENSOR_NODE_NUM →
      calculate_radio_channel id = id * RF24_CHANNEL_SPACING) ∧
    calculate_radio_channel SENSOR_NODE_NUM = 50 ∧
    calculate_radio_channel SENSOR_NODE_NUM ≤ 125 ∧
    (∀ a ∈ Finset.Icc 1 SENSOR_NODE_NUM, ∀ b ∈ Finset.Icc 1 SENSOR_NODE_NUM,
      a ≠ b →
      calculate_radio_channel a + 2 ≤ calculate_radio_channel b ∨
      calculate_radio_channel b + 2 ≤ calculate_radio_channel a) :=
  ⟨rfl, by decide, by decide, by decide, by decide, by decide⟩

/-- Witness for C4: evaluates the theorem's bounded statements at concrete
ids. -/
theorem C4_channel_derivation_witness :
    calculate_radio_channel 4 = 4 * RF24_CHANNEL_SPACING ∧
    (calculate_radio_channel 4 + 2 ≤ calculate_radio_channel 9 ∨
     calculate_radio_channel 9 + 2 ≤ calculate_radio_channel 4) :=
  ⟨C4_channel_derivation.2.2.1 4 (by decide),
   C4_channel_derivation.2.2.2.2.2 4 (by decide) 9 (by decide) (by decide)⟩

/-! ## The radio transceiver model

The NRF24L01 driver (the external RF24 collaborator) is modelled by the
visible configuration the firmware manipulates: current channel, the address
open on reading pipe `RF24_READING_PIPE` (if any), the writing-pipe address
(if any), and whether the radio is in listening mode.  Each driver call the
firmware makes is a `RadioOp`; `RadioState.apply` is its effect on the
configuration. -/

/-- One call into the RF24 driver, as issued by the firmware. -/
inductive RadioOp where
  | setChannel (c : Nat)
  | openReadingPipe (pipe addr : Nat)
  | closeReadingPipe (pipe : Nat)
  | openWritingPipe (addr : Nat)
  | stopListening
  | startListening
  | write
  | testCarrier
  | delayMs (ms : Nat)
  | read (len : Nat)
deriving DecidableEq, Repr

/-- The transceiver's visible configuration. -/
structure RadioState where
  channel : Nat
  readingPipe : Option Nat
  writingPipe : Option Nat
  listening : Bool
deriving DecidableEq, Repr

/-- Effect of one driver call on the transceiver configuration.
`write`, `testCarrier`, `delayMs` and `read` do not change it. -/
def RadioState.apply (r : RadioState) : RadioOp → RadioState
  | .setChannel c => { r with channel := c }
  | .openReadingPipe _ addr => { r with readingPipe := some addr }
  | .closeReadingPipe _ => { r with readingPipe := none }
  | .openWritingPipe addr => { r with writingPipe := some addr }
  | .stopListening => { r with listening := false }
  | .startListening => { r with listening := true }
  | .write => r
  | .testCarrier => r
  | .delayMs _ => r
  | .read _ => r

/-- Runs a trace of driver calls from a starting configuration. -/
def runRadio (r : RadioState) (ops : List RadioOp) : RadioState :=
  ops.foldl RadioState.apply r

/-! ## Messages (message.cpp, and UpdateMessage from the Message library) -/

/-- The message-kind enum of the Message library.  `STATUS_UPDATE` is the
only kind currently defined. -/
inductive message_t where
  | STATUS_UPDATE
deriving DecidableEq, Repr

/-- Embeds the `Message` value type: header of receiver id, sender id and
message kind (message.cpp lines 15-20 assign exactly these three fields). -/
structure Message where
  rx_id : Nat
  tx_id : Nat
  msg_type : message_t
deriving DecidableEq, Repr

/-- Embeds `Message::get_rx_id` (message.cpp lines 23-26). -/
def Message.get_rx_id (m : Message) : Nat := m.rx_id

/-- Embeds `Message::get_tx_id` (message.cpp lines 29-32). -/
def Message.get_tx_id (m : Message) : Nat := m.tx_id

/-- Embeds `Message::get_type` (message.cpp lines 35-38).  The C++ body is
`return this->get_type();` — an unconditional call to the very function
being defined, which never inspects the stored `msg_type` field.  The
recursion is modelled by a fuel argument: each unit of fuel is one available
stack frame, each call consumes one and recurses, and `none` is reached when
the stack is exhausted. -/
def Message.get_type (m : Message) : Nat → Option message_t
  | 0 => none
  | fuel + 1 => Message.get_type m fuel

/-- Embeds the `UpdateMessage` value type: a `Message` specialized with a
node id and an `is_vacant` boolean payload, constructed as
`UpdateMessage(rx_id, tx_id, node_id, is_vacant)` (see sensornode.cpp
line 226). -/
structure UpdateMessage where
  rx_id : Nat
  tx_id : Nat
  node_id : Nat
  is_vacant : Bool
deriving DecidableEq, Repr

/-- The inherited receiver-id accessor used by `transmit_update`
(sensornode.cpp line 162). -/
def UpdateMessage.get_rx_id (m : UpdateMessage) : Nat := m.rx_id

/-! ## The sensor node and its transmit protocol (sensornode.cpp) -/

/-- The configuration fields of a `SensorNode` relevant to the transmit
protocol, set by the constructor (sensornode.cpp lines 46-52). -/
structure SensorNode where
  node_id : Nat
  radio_address : Nat
  radio_channel : Nat
deriving DecidableEq, Repr

/-- Embeds the `SensorNode` constructor (sensornode.cpp lines 46-52): the
derived address and channel are computed from the node id. -/
def SensorNode.make (node_id : Nat) : SensorNode :=
  { node_id := node_id
    radio_address := calculate_radio_address node_id
    radio_channel := calculate_radio_channel node_id }

/-- Models the Arduino core function `random(min, max)` called at
sensornode.cpp line 182: per the Arduino reference it returns a value from
`min` (inclusive) up to but *not including* `max`; `r` abstracts the raw
PRNG output. -/
def randomArduino (mn mx r : Nat) : Nat := mn + r % (mx - mn)

/-- The busy-channel backoff drawn at sensornode.cpp line 182:
`random(CHANNEL_BUSY_DELAY_MIN_MS, CHANNEL_BUSY_DELAY_MAX_MS)`. -/
def channel_busy_delay (r : Nat) : Nat :=
  randomArduino CHANNEL_BUSY_DELAY_MIN_MS CHANNEL_BUSY_DELAY_MAX_MS r

/-- Embeds the carrier-sense loop of `SensorNode::transmit_update`
(sensornode.cpp lines 170-185).  `carrier i` is the oracle result of the
`radio.testCarrier()` probe on iteration `i`; `rng i` is the raw PRNG output
consumed on iteration `i` when the channel is busy.  Arguments are the index
`i` of the current iteration and the number of iterations left; the result
is the final value of the C++ `is_channel_open` flag (initially `false`,
line 170) together with the trace of driver calls the loop makes. -/
def carrier_sense_loop (carrier : Nat → Bool) (rng : Nat → Nat) :
    Nat → Nat → Bool × List RadioOp
  | _, 0 => (false, [])
  | i, n + 1 =>
    if carrier i = false then
      (true, [RadioOp.testCarrier])
    else
      let rest := carrier_sense_loop carrier rng (i + 1) n
      (rest.1,
        RadioOp.testCarrier ::
          RadioOp.delayMs (channel_busy_delay (rng i)) :: rest.2)

/-- Embeds `SensorNode::transmit_update(UpdateMessage*)` (sensornode.cpp
lines 159-219) as the exact sequence of driver calls it issues:

1. derive the receiver's address and channel (lines 162-164);
2. switch to the receiver's channel (line 167);
3. run the carrier-sense loop (lines 170-185);
4. if the channel never came open: restore own channel, reopen own reading
   pipe, return `false` (lines 188-195);
5. otherwise stop listening, close the reading pipe, open a writing pipe to
   the receiver, `radio.write` the buffered copy of the message (`sendOK`
   abstracts its ack result), restore own channel, reopen own reading pipe,
   start listening again, and return the send result (lines 198-218). -/
def transmit_update (self : SensorNode) (msg : UpdateMessage)
    (carrier : Nat → Bool) (rng : Nat → Nat) (sendOK : Bool) :
    Bool × List RadioOp :=
  let rx_id := msg.get_rx_id
  let rx_address := calculate_radio_address rx_id
  let rx_channel := calculate_radio_channel rx_id
  let probe := carrier_sense_loop carrier rng 0 CHANNEL_CHECKS_MAX
  if probe.1 = false then
    (false,
      RadioOp.setChannel rx_channel :: probe.2 ++
        [RadioOp.setChannel self.radio_channel,
         RadioOp.openReadingPipe RF24_READING_PIPE self.radio_address])
  else
    (sendOK,
      RadioOp.setChannel rx_channel :: probe.2 ++
        [RadioOp.stopListening,
         RadioOp.closeReadingPipe RF24_READING_PIPE,
         RadioOp.openWritingPipe rx_address,
         RadioOp.write,
         RadioOp.setChannel self.radio_channel,
         RadioOp.openReadingPipe RF24_READING_PIPE self.radio_address,
         RadioOp.startListening])

/-! ### Lemmas about the carrier-sense loop -/

/-- The carrier-sense loop only probes and delays: its trace never changes
the transceiver configuration. -/
lemma carrier_sense_loop_inert (carrier : Nat → Bool) (rng : Nat → Nat) :
    ∀ (n i : Nat) (r : RadioState),
      runRadio r (carrier_sense_loop carrier rng i n).2 = r := by
  intro n
  induction n with
  | zero => intro i r; rfl
  | succ m ih =>
    intro i r
    by_cases hc : carrier i = false
    · simp [carrier_sense_loop, hc, runRadio, RadioState.apply]
    · simp only [carrier_sense_loop, hc, if_false, runRadio,
        List.foldl_cons, RadioState.apply]
      simpa [runRadio] using ih (i + 1) r

/-- The carrier-sense loop never calls the send primitive. -/
lemma carrier_sense_loop_no_write (carrier : Nat → Bool) (rng : Nat → Nat) :
    ∀ (n i : Nat), RadioOp.write ∉ (carrier_sense_loop carrier rng i n).2 := by
  intro n
  induction n with
  | zero => intro i; simp [carrier_sense_loop]
  | succ m ih =>
    intro i
    by_cases hc : carrier i = false
    · simp [carrier_sense_loop, hc]
    · simp [carrier_sense_loop, hc]
      exact ih (i + 1)

/-- If every probe the loop can make reports the channel busy, the loop ends
with `is_channel_open = false`. -/
lemma carrier_sense_loop_all_busy (carrier : Nat → Bool) (rng : Nat → Nat) :
    ∀ (n i : Nat), (∀ j, j < n → carrier (i + j) = true) →
      (carrier_sense_loop carrier rng i n).1 = false := by
  intro n
  induction n with
  | zero => intro i _; rfl
  | succ m ih =>
    intro i hb
    have hc : carrier i = true := by simpa using hb 0 (Nat.succ_pos m)
    simp [carrier_sense_loop, hc]
    exact ih (i + 1) fun j hj => by
      have := hb (j + 1) (Nat.succ_lt_succ hj)
      simpa [show i + 1 + j = i + (j + 1) by omega] using this

/-- Every delay in the loop's trace is a value of `channel_busy_delay`. -/
lemma carrier_sense_loop_delay (carrier : Nat → Bool) (rng : Nat → Nat) :
    ∀ (n i ms : Nat),
      RadioOp.delayMs ms ∈ (carrier_sense_loop carrier rng i n).2 →
      ∃ s : Nat, ms = channel_busy_delay s := by
  intro n
  induction n with
  | zero => intro i ms h; simp [carrier_sense_loop] at h
  | succ m ih =>
    intro i ms h
    by_cases hc : carrier i = false
    · simp [carrier_sense_loop, hc] at h
    · simp [carrier_sense_loop, hc] at h
      rcases h with h | h
      · exact ⟨rng i, h⟩
      · exact ih (i + 1) ms h

/-- Every raw PRNG output yields a backoff in `[25, 100)`. -/
lemma channel_busy_delay_bounds (s : Nat) :
    CHANNEL_BUSY_DELAY_MIN_MS ≤ channel_busy_delay s ∧
      channel_busy_delay s < CHANNEL_BUSY_DELAY_MAX_MS := by
  unfold channel_busy_delay randomArduino CHANNEL_BUSY_DELAY_MIN_MS
    CHANNEL_BUSY_DELAY_MAX_MS
  omega

/-! ### Claims C1 and C2: the transmit protocol's restore invariant -/

/-- **C1.** Whatever the carrier-sense outcomes, the PRNG draws and the ack
result of the send, a `transmit_update` invocation started from a listening
radio leaves the radio on the node's own channel, with the node's own
reading pipe open on its own address, in listening mode. -/
theorem C1_radio_restored (self : SensorNode) (msg : UpdateMessage)
    (r : RadioState) (carrier : Nat → Bool) (rng : Nat → Nat) (sendOK : Bool)
    (h : r.listening = true) :
    (runRadio r (transmit_update self msg carrier rng sendOK).2).channel
        = self.radio_channel ∧
    (runRadio r (transmit_update self msg carrier rng sendOK).2).readingPipe
        = some self.radio_address ∧
    (runRadio r (transmit_update self msg carrier rng sendOK).2).listening
        = true := by
  have hin := carrier_sense_loop_inert carrier rng CHANNEL_CHECKS_MAX 0
  rcases hpo : carrier_sense_loop carrier rng 0 CHANNEL_CHECKS_MAX
    with ⟨flag, ops⟩
  rw [hpo] at hin
  simp only [runRadio] at hin
  cases flag <;>
    simp [transmit_update, hpo, runRadio, List.foldl_append, hin,
      RadioState.apply, h]

/-- Witness for C1 at concrete inputs: node 1, an always-idle channel. -/
theorem C1_radio_restored_witness :
    (runRadio ⟨50, some 3, none, true⟩
        (transmit_update (SensorNode.make 1) ⟨0, 1, 1, true⟩
          (fun _ => false) (fun _ => 0) true).2).channel
      = (SensorNode.make 1).radio_channel ∧
    (runRadio ⟨50, some 3, none, true⟩
        (transmit_update (SensorNode.make 1) ⟨0, 1, 1, true⟩
          (fun _ => false) (fun _ => 0) true).2).readingPipe
      = some (SensorNode.make 1).radio_address ∧
    (runRadio ⟨50, some 3, none, true⟩
        (transmit_update (SensorNode.make 1) ⟨0, 1, 1, true⟩
          (fun _ => false) (fun _ => 0) true).2).listening
      = true :=
  C1_radio_restored (SensorNode.make 1) ⟨0, 1, 1, true⟩
    ⟨50, some 3, none, true⟩ (fun _ => false) (fun _ => 0) true rfl

/-- **C2.** If every one of the `CHANNEL_CHECKS_MAX` carrier probes reports
the channel busy, `transmit_update` returns `false`, its trace never
contains the send primitive `radio.write`, and the node's own channel and
reading pipe are restored at return. -/
theorem C2_carrier_busy_abort (self : SensorNode) (msg : UpdateMessage)
    (r : RadioState) (carrier : Nat → Bool) (rng : Nat → Nat) (sendOK : Bool)
    (hbusy : ∀ i, i < CHANNEL_CHECKS_MAX → carrier i = true) :
    (transmit_update self msg carrier rng sendOK).1 = false ∧
    RadioOp.write ∉ (transmit_update self msg carrier rng sendOK).2 ∧
    (runRadio r (transmit_update self msg carrier rng sendOK).2).channel
        = self.radio_channel ∧
    (runRadio r (transmit_update self msg carrier rng sendOK).2).readingPipe
        = some self.radio_address := by
  have hflag : (carrier_sense_loop carrier rng 0 CHANNEL_CHECKS_MAX).1
      = false :=
    carrier_sense_loop_all_busy carrier rng CHANNEL_CHECKS_MAX 0
      fun j hj => by simpa using hbusy j hj
  have hnw := carrier_sense_loop_no_write carrier rng CHANNEL_CHECKS_MAX 0
  have hin := carrier_sense_loop_inert carrier rng CHANNEL_CHECKS_MAX 0
  rcases hpo : carrier_sense_loop carrier rng 0 CHANNEL_CHECKS_MAX
    with ⟨flag, ops⟩
  rw [hpo] at hflag hnw hin
  simp only at hflag
  subst hflag
  simp only [runRadio] at hin
  simp only at hnw
  simp [transmit_update, hpo, runRadio, List.foldl_append, hin,
    RadioState.apply, hnw]

/-- Witness for C2 at concrete inputs: node 2, an always-busy channel. -/
theorem C2_carrier_busy_abort_witness :
    (transmit_update (SensorNode.make 2) ⟨0, 2, 2, false⟩
        (fun _ => true) (fun _ => 7) true).1 = false ∧
    RadioOp.write ∉ (transmit_update (SensorNode.make 2) ⟨0, 2, 2, false⟩
        (fun _ => true) (fun _ => 7) true).2 ∧
    (runRadio ⟨10, some 2, none, true⟩
        (transmit_update (SensorNode.make 2) ⟨0, 2, 2, false⟩
          (fun _ => true) (fun _ => 7) true).2).channel
      = (SensorNode.make 2).radio_channel ∧
    (runRadio ⟨10, some 2, none, true⟩
        (transmit_update (SensorNode.make 2) ⟨0, 2, 2, false⟩
          (fun _ => true) (fun _ => 7) true).2).readingPipe
      = some (SensorNode.make 2).radio_address :=
  C2_carrier_busy_abort (SensorNode.make 2) ⟨0, 2, 2, false⟩
    ⟨10, some 2, none, true⟩ (fun _ => true) (fun _ => 7) true
    fun _ _ => rfl

/-! ### Claim C5: the busy-channel backoff range

Arduino's `random(min, max)` excludes its upper bound, so
`random(25, 100)` draws from `[25, 99]`, not `[25, 100]`. -/

/-- **C5, counterexample.** The claim includes the value
`CHANNEL_BUSY_DELAY_MAX_MS = 100` among the possible delays, but no raw
PRNG output produces a backoff of 100 milliseconds. -/
theorem C5_counterexample :
    CHANNEL_BUSY_DELAY_MAX_MS = 100 ∧
    ¬ ∃ s : Nat, channel_busy_delay s = CHANNEL_BUSY_DELAY_MAX_MS := by
  refine ⟨rfl, ?_⟩
  rintro ⟨s, hs⟩
  unfold channel_busy_delay randomArduino CHANNEL_BUSY_DELAY_MIN_MS
    CHANNEL_BUSY_DELAY_MAX_MS at hs
  omega

/-- **C5, amended.** Every busy-channel backoff lies in the half-open range
`[CHANNEL_BUSY_DELAY_MIN_MS, CHANNEL_BUSY_DELAY_MAX_MS)` = `[25, 99]`;
every integer from 25 through 99 is attainable; and every delay appearing
in a `transmit_update` trace obeys the same bounds. -/
theorem C5_backoff_range :
    (∀ s : Nat, CHANNEL_BUSY_DELAY_MIN_MS ≤ channel_busy_delay s ∧
      channel_busy_delay s < CHANNEL_BUSY_DELAY_MAX_MS) ∧
    (∀ d : Nat, CHANNEL_BUSY_DELAY_MIN_MS ≤ d →
      d < CHANNEL_BUSY_DELAY_MAX_MS → ∃ s : Nat, channel_busy_delay s = d) ∧
    (∀ (self : SensorNode) (msg : UpdateMessage) (carrier : Nat → Bool)
        (rng : Nat → Nat) (sendOK : Bool) (ms : Nat),
      RadioOp.delayMs ms ∈ (transmit_update self msg carrier rng sendOK).2 →
      CHANNEL_BUSY_DELAY_MIN_MS ≤ ms ∧ ms < CHANNEL_BUSY_DELAY_MAX_MS) := by
  refine ⟨channel_busy_delay_bounds, ?_, ?_⟩
  · intro d h1 h2
    refine ⟨d - CHANNEL_BUSY_DELAY_MIN_MS, ?_⟩
    simp only [channel_busy_delay, randomArduino, CHANNEL_BUSY_DELAY_MIN_MS,
      CHANNEL_BUSY_DELAY_MAX_MS] at h1 h2 ⊢
    omega
  · intro self msg carrier rng sendOK ms hmem
    have hdel := carrier_sense_loop_delay carrier rng CHANNEL_CHECKS_MAX 0 ms
    rcases hpo : carrier_sense_loop carrier rng 0 CHANNEL_CHECKS_MAX
      with ⟨flag, ops⟩
    rw [hpo] at hdel
    simp only at hdel
    cases flag <;> simp [transmit_update, hpo] at hmem <;>
      rcases hdel hmem with ⟨s, rfl⟩ <;> exact channel_busy_delay_bounds s

/-- Witness for C5's amended statement: the bounds at PRNG output 0, the
attainability of 99 ms, and the bounds on the one delay in a concrete
trace in which the first probe is busy and the second idle. -/
theorem C5_backoff_range_witness :
    (CHANNEL_BUSY_DELAY_MIN_MS ≤ channel_busy_delay 0 ∧
      channel_busy_delay 0 < CHANNEL_BUSY_DELAY_MAX_MS) ∧
    (∃ s : Nat, channel_busy_delay s = 99) ∧
    (CHANNEL_BUSY_DELAY_MIN_MS ≤ 25 ∧ 25 < CHANNEL_BUSY_DELAY_MAX_MS) :=
  ⟨C5_backoff_range.1 0,
   C5_backoff_range.2.1 99 (by decide) (by decide),
   C5_backoff_range.2.2 (SensorNode.make 2) ⟨0, 2, 2, true⟩
     (fun i => decide (i = 0)) (fun _ => 0) true 25 (by decide)⟩

/-! ### Claim C6: the sensor-status change detector

`tof_sensor_status_t` is the node's stored occupancy state (spec: tri-state
VACANT / OCCUPIED / UNKNOWN, initially UNKNOWN).  The raw-status codes are
the Adafruit VL6180X driver's: `VL6180X_ERROR_NONE = 0`,
`VL6180X_ERROR_NOCONVERGE = 7`. -/

/-- The stored occupancy status of a parking space. -/
inductive tof_sensor_status_t where
  | UNKNOWN
  | OCCUPIED
  | VACANT
deriving DecidableEq, Repr

/-- Adafruit VL6180X raw range status: no error (a valid range reading). -/
def VL6180X_ERROR_NONE : Nat := 0

/-- Adafruit VL6180X raw range status: range measurement did not converge. -/
def VL6180X_ERROR_NOCONVERGE : Nat := 7

/-- Embeds `SensorNode::is_sensor_status_changed` (sensornode.cpp lines
117-156).  The hardware read (lines 120-121) is abstracted by the raw
status `status` it returns; the stored `sensor_status` field is passed and
returned explicitly.  Result: (return value, new stored status). -/
def is_sensor_status_changed (status : Nat) (stored : tof_sensor_status_t) :
    Bool × tof_sensor_status_t :=
  if status = VL6180X_ERROR_NONE then
    if stored = tof_sensor_status_t.OCCUPIED then
      (false, stored)
    else
      (true, tof_sensor_status_t.OCCUPIED)
  else if status = VL6180X_ERROR_NOCONVERGE then
    if stored = tof_sensor_status_t.VACANT then
      (false, stored)
    else
      (true, tof_sensor_status_t.VACANT)
  else
    (false, stored)

/-- **C6.** Raw status `VL6180X_ERROR_NONE` maps to OCCUPIED and
`VL6180X_ERROR_NOCONVERGE` maps to VACANT, with the return value true
exactly when the mapped status differs from the stored one and the stored
status updated exactly to the mapped value; any other raw status returns
false and leaves the stored status unchanged. -/
theorem C6_status_mapping :
    (∀ stored : tof_sensor_status_t,
      is_sensor_status_changed VL6180X_ERROR_NONE stored =
        (decide (stored ≠ tof_sensor_status_t.OCCUPIED),
         tof_sensor_status_t.OCCUPIED)) ∧
    (∀ stored : tof_sensor_status_t,
      is_sensor_status_changed VL6180X_ERROR_NOCONVERGE stored =
        (decide (stored ≠ tof_sensor_status_t.VACANT),
         tof_sensor_status_t.VACANT)) ∧
    (∀ (status : Nat) (stored : tof_sensor_status_t),
      status ≠ VL6180X_ERROR_NONE → status ≠ VL6180X_ERROR_NOCONVERGE →
      is_sensor_status_changed status stored = (false, stored)) := by
  refine ⟨?_, ?_, ?_⟩
  · intro stored; cases stored <;> decide
  · intro stored; cases stored <;> decide
  · intro status stored h1 h2
    simp [is_sensor_status_changed, h1, h2]

/-- Witness for C6: an unrecognized raw status (3, an early-convergence
system error) leaves a VACANT stored status untouched and reports no
change. -/
theorem C6_status_mapping_witness :
    is_sensor_status_changed 3 tof_sensor_status_t.VACANT =
      (false, tof_sensor_status_t.VACANT) :=
  C6_status_mapping.2.2 3 tof_sensor_status_t.VACANT
    (by decide) (by decide)

/-! ### Claim C7: the message-kind accessor -/

/-- **C7.** `Message::get_type` never returns: its body is an unconditional
recursive call to itself, so for every constructed message and every finite
stack budget the call exhausts the stack without producing the stored
`msg_type` field.  (The claim — termination with the stored kind — is the
documented intent; the code is the defect.) -/
theorem C7_get_type_never_returns :
    ∀ (m : Message) (fuel : Nat), Message.get_type m fuel = none := by
  intro m fuel
  induction fuel with
  | zero => rfl
  | succ n ih => simpa [Message.get_type] using ih

/-! ## The base station's node registry (basestation.hpp)

`basestation.hpp` line 37 declares and initializes the registry:
`bool node_status[SENSOR_NODE_NUM] = {0};` — an entry per sensor node id in
[1, SENSOR_NODE_NUM], `true` meaning vacant, all entries zero (occupied) at
startup.  The registry is a length-10 `List Bool`; the entry of node id
`i` lives at index `i - 1`.  The member-function bodies live in a
`basestation.cpp` that is not part of the sources here; only their
declarations (basestation.hpp lines 101-131) are, so the three registry
operations are modelled from the spec. -/

/-- The registry as initialized at startup (basestation.hpp line 37:
`= {0}`, every entry occupied). -/
def initial_node_status : List Bool := List.replicate SENSOR_NODE_NUM false

/-- Modelled from the spec: the body of `BaseStation::is_valid_sensor_node`
is in the absent basestation.cpp; spec §4.6 defines it as
"true iff id is in [1, N]" with N = `SENSOR_NODE_NUM`. -/
def is_valid_sensor_node (node_id : Nat) : Bool :=
  1 ≤ node_id && node_id ≤ SENSOR_NODE_NUM

/-- Modelled from the spec: the body of `BaseStation::update_node_status`
is in the absent basestation.cpp; spec §4.6 defines it as "validates id,
then overwrites the registry entry; returns whether the write occurred",
failing as a no-op for invalid ids. -/
def update_node_status (reg : List Bool) (node_id : Nat) (is_vacant : Bool) :
    Bool × List Bool :=
  if is_valid_sensor_node node_id then
    (true, reg.set (node_id - 1) is_vacant)
  else
    (false, reg)

/-- Modelled from the spec: the body of `BaseStation::num_vacant` is in the
absent basestation.cpp; spec §4.6 defines it as "scans the registry,
returns count of entries currently marked vacant". -/
def num_vacant : List Bool → Nat
  | [] => 0
  | b :: rest => (if b then 1 else 0) + num_vacant rest

/-- A sequence of `update_node_status` calls, each acting on the registry
the previous one left. -/
def apply_updates (reg : List Bool) (us : List (Nat × Bool)) : List Bool :=
  us.foldl (fun r u => (update_node_status r u.1 u.2).2) reg

/-- The registry scan agrees with the count of true entries. -/
lemma num_vacant_eq_countP (reg : List Bool) :
    num_vacant reg = reg.countP (fun b => b) := by
  induction reg with
  | nil => rfl
  | cons b rest ih =>
    cases b <;> simp [num_vacant, List.countP_cons, ih, Nat.add_comm]

/-- Setting one index leaves every other index's `getD` value unchanged. -/
lemma getD_set_ne (l : List Bool) (i j : Nat) (v : Bool) (h : i ≠ j) :
    (l.set i v).getD j false = l.getD j false := by
  induction l generalizing i j with
  | nil => simp
  | cons a rest ih =>
    cases i with
    | zero =>
      cases j with
      | zero => exact absurd rfl h
      | succ j => simp [List.set]
    | succ i =>
      cases j with
      | zero => simp [List.set]
      | succ j =>
        simp only [List.set, List.getD_cons_succ]
        exact ih i j fun hij => h (by rw [hij])

/-- Setting an in-bounds index makes `getD` at that index the new value. -/
lemma getD_set_eq (l : List Bool) (i : Nat) (v : Bool) (h : i < l.length) :
    (l.set i v).getD i false = v := by
  induction l generalizing i with
  | nil => simp at h
  | cons a rest ih =>
    cases i with
    | zero => simp [List.set]
    | succ i =>
      simp only [List.set, List.getD_cons_succ]
      exact ih i (by simpa using h)

/-! ### Claim C8: registry validation and bounds -/

/-- **C8.** `is_valid_sensor_node` holds exactly on ids 1..10; an update
with an invalid id fails and leaves the registry untouched; an update with
a valid id succeeds, stays inside the registry's bounds, overwrites exactly
the entry of that id and preserves every other entry and the length. -/
theorem C8_registry_validation :
    (∀ id : Nat, is_valid_sensor_node id = true ↔
      1 ≤ id ∧ id ≤ SENSOR_NODE_NUM) ∧
    (∀ (reg : List Bool) (id : Nat) (v : Bool),
      is_valid_sensor_node id = false →
      update_node_status reg id v = (false, reg)) ∧
    (∀ (reg : List Bool) (id : Nat) (v : Bool),
      reg.length = SENSOR_NODE_NUM → is_valid_sensor_node id = true →
      (update_node_status reg id v).1 = true ∧
      id - 1 < reg.length ∧
      ((update_node_status reg id v).2).getD (id - 1) false = v ∧
      (∀ j : Nat, j ≠ id - 1 →
        ((update_node_status reg id v).2).getD j false = reg.getD j false) ∧
      ((update_node_status reg id v).2).length = reg.length) := by
  refine ⟨?_, ?_, ?_⟩
  · intro id
    simp [is_valid_sensor_node]
  · intro reg id v h
    simp [update_node_status, h]
  · intro reg id v hlen hvalid
    have hid : 1 ≤ id ∧ id ≤ SENSOR_NODE_NUM := by
      simpa [is_valid_sensor_node] using hvalid
    have hbound : id - 1 < reg.length := by
      rw [hlen]; unfold SENSOR_NODE_NUM at hid ⊢; omega
    refine ⟨by simp [update_node_status, hvalid], hbound, ?_, ?_, ?_⟩
    · simp only [update_node_status, hvalid, if_true]
      exact getD_set_eq reg (id - 1) v hbound
    · intro j hj
      simp only [update_node_status, hvalid, if_true]
      exact getD_set_ne reg (id - 1) j v fun hij => hj hij.symm
    · simp [update_node_status, hvalid]

/-- Witness for C8: id 11 is rejected as a no-op; id 3 overwrites entry 3
(index 2) of the startup registry and nothing else. -/
theorem C8_registry_validation_witness :
    (is_valid_sensor_node 3 = true ↔ 1 ≤ 3 ∧ 3 ≤ SENSOR_NODE_NUM) ∧
    update_node_status initial_node_status 11 true =
      (false, initial_node_status) ∧
    (update_node_status initial_node_status 3 true).1 = true ∧
    ((update_node_status initial_node_status 3 true).2).getD 2 false = true ∧
    ((update_node_status initial_node_status 3 true).2).getD 0 false =
      initial_node_status.getD 0 false :=
  ⟨C8_registry_validation.1 3,
   C8_registry_validation.2.1 initial_node_status 11 true (by decide),
   (C8_registry_validation.2.2 initial_node_status 3 true
      (by decide) (by decide)).1,
   (C8_registry_validation.2.2 initial_node_status 3 true
      (by decide) (by decide)).2.2.1,
   (C8_registry_validation.2.2 initial_node_status 3 true
      (by decide) (by decide)).2.2.2.1 0 (by decide)⟩

/-! ### Claim C9: startup default and the vacancy count -/

/-- **C9.** The registry starts with all ten entries occupied (`false`);
after any sequence of updates `num_vacant` is exactly the number of entries
whose stored vacancy flag is `true`; and marking exactly ids {1, 3, 5}
vacant from startup yields `num_vacant = 3`. -/
theorem C9_num_vacant :
    initial_node_status = List.replicate SENSOR_NODE_NUM false ∧
    (∀ us : List (Nat × Bool),
      num_vacant (apply_updates initial_node_status us) =
        (apply_updates initial_node_status us).countP (fun b => b)) ∧
    num_vacant (apply_updates initial_node_status
      [(1, true), (3, true), (5, true)]) = 3 :=
  ⟨rfl,
   fun us => num_vacant_eq_countP (apply_updates initial_node_status us),
   by decide⟩

/-! ## The receive path (sensornode.cpp lines 233-247) -/

/-- Embeds `SensorNode::read_message` (sensornode.cpp lines 239-247).  The
driver state is abstracted by `radioAvailable` (the oracle result of
`radio.available()`) and `incoming` (the payload `radio.read` would
deliver); `buffer` is the caller-supplied buffer and `len` its size.
Result: (return value, buffer contents after the call, trace of driver
calls made). -/
def read_message (radioAvailable : Bool) (incoming : List Nat)
    (buffer : List Nat) (len : Nat) : Bool × List Nat × List RadioOp :=
  if radioAvailable = false then
    (false, buffer, [])
  else
    (true, incoming.take len, [RadioOp.read len])

/-- **C10.** With no message available, `read_message` returns `false`,
makes no driver read call, and leaves the caller's buffer untouched; with a
message available it issues exactly one read of `len` bytes into the
caller's buffer and returns `true`. -/
theorem C10_read_message (incoming buffer : List Nat) (len : Nat) :
    read_message false incoming buffer len = (false, buffer, []) ∧
    (∀ n : Nat,
      RadioOp.read n ∉ (read_message false incoming buffer len).2.2) ∧
    read_message true incoming buffer len =
      (true, incoming.take len, [RadioOp.read len]) := by
  refine ⟨rfl, ?_, rfl⟩
  intro n
  simp [read_message]

/-- Witness for C10 at a concrete buffer and payload. -/
theorem C10_read_message_witness :
    read_message false [1, 2] [9] 2 = (false, [9], []) ∧
    read_message true [1, 2] [9] 2 = (true, [1, 2], [RadioOp.read 2]) :=
  ⟨(C10_read_message [1, 2] [9] 2).1, (C10_read_message [1, 2] [9] 2).2.2⟩

end SmartWSN
